import Mathlib

/-!
Shallow embedding of `node_helper.js` of MMM-WmataBusSchedule, a background
data-fetching helper: a schedule gate (`shouldWeFetchCommuteData`), three
HTTP fetch operations (`fetchNextBus`, `fetchStopSchedule`, `fetchTimeToWork`)
and the dispatch/aggregation entry point (`socketNotificationReceived`).

The network is modelled as an oracle `Net α` mapping each outbound axios
request to either a thrown transport error (a rejected promise, surfaced by
`await` as an exception) or an HTTP response with a status code and a data
payload of type `α`.  Wall-clock time is modelled by `Now`: the weekday as
returned by moment's `day()` (0–6) and the time of day in milliseconds, the
comparison granularity of moment.
-/

namespace WmataBusSchedule

/-- A time of day as written in the configuration's `"HH:mm"` strings;
`moment(s, 'HH:mm a')` parses such a string to today's date at that hour
and minute (seconds and milliseconds zero). -/
structure HM where
  hour : Nat
  minute : Nat
deriving Repr, DecidableEq

/-- Milliseconds after midnight denoted by an `"HH:mm"` time. -/
def hmToMs (t : HM) : Nat := (t.hour * 60 + t.minute) * 60000

/-- `config.schedule.times` in the configuration object. -/
structure ScheduleTimes where
  start : HM
  stop : HM
deriving Repr, DecidableEq

/-- `config.schedule`: the optional active-days / time-window gate. -/
structure Schedule where
  days : List Nat
  times : ScheduleTimes
deriving Repr, DecidableEq

/-- A geographic coordinate pair.  The source only ever interpolates the
latitude and longitude into query strings, so they are kept as strings. -/
structure Coord where
  lat : String
  lon : String
deriving Repr, DecidableEq

/-- One entry of `config.places.destinations`. -/
structure Destination where
  name : String
  lat : String
  lon : String
deriving Repr, DecidableEq

/-- `config.places`. -/
structure Places where
  home : Coord
  destinations : List Destination
deriving Repr, DecidableEq

/-- The configuration object handed to the helper with each request.
`schedule = none` models a config object without a `schedule` key
(the `'schedule' in config` test). -/
structure Config where
  busStopId : String
  wmataApiKey : String
  googleApiKey : String
  schedule : Option Schedule
  places : Places
deriving Repr, DecidableEq

/-- The current wall-clock instant: `day` is moment's `now.day()` (0 =
Sunday … 6 = Saturday) and `msOfDay` the time of day in milliseconds,
moment's default comparison granularity. -/
structure Now where
  day : Nat
  msOfDay : Nat
deriving Repr, DecidableEq

/-- moment's `now.minute()`: the minute within the current hour. -/
def Now.minuteOfHour (n : Now) : Nat := n.msOfDay / 60000 % 60

/-- moment's `a.isBetween(b, c)` with its default inclusivity `'()'`:
`a.isAfter(b) && a.isBefore(c)`, i.e. strictly between, at millisecond
granularity. -/
def momentIsBetween (t lo hi : Nat) : Bool := lo < t && t < hi

/-- `shouldWeFetchCommuteData(config)`: if a `schedule` key is present,
fetch only when the current weekday is in `schedule.days` and the current
instant `isBetween` the parsed start and stop times; with no schedule,
always fetch. -/
def shouldWeFetchCommuteData (config : Config) (now : Now) : Bool :=
  match config.schedule with
  | some sched =>
    let startTime := hmToMs sched.times.start
    let endTime := hmToMs sched.times.stop
    sched.days.contains now.day && momentIsBetween now.msOfDay startTime endTime
  | none => true

/-- One outbound axios request: the `axiosConfig` object built by each
fetch operation (`method`, `url`, `params` as ordered key/value pairs). -/
structure AxiosRequest where
  method : String
  url : String
  params : List (String × String)
deriving Repr, DecidableEq

/-- An HTTP response as delivered by axios: a status code and a body. -/
structure HttpResponse (α : Type) where
  status : Nat
  data : α
deriving Repr, DecidableEq

/-- A thrown transport-level error (a rejected promise). -/
structure NetErr where
  msg : String
deriving Repr, DecidableEq

/-- The network oracle: what `await axios(axiosConfig)` yields for each
request — either a thrown error or a response. -/
def Net (α : Type) : Type := AxiosRequest → Except NetErr (HttpResponse α)

/-- The record each fetch operation returns.  JavaScript objects carry only
the keys the taken branch assigns, so every field other than `success` is
optional here; an absent key is `none`. -/
structure FetchResult (α : Type) where
  success : Bool
  data : Option α
  processor : Option String
  name : Option String
  status : Option Nat
deriving Repr, DecidableEq

/-- The `axiosConfig` built by `fetchNextBus`. -/
def nextBusRequest (config : Config) : AxiosRequest where
  method := "get"
  url := "https://api.wmata.com/NextBusService.svc/json/jPredictions"
  params := [("StopID", config.busStopId), ("api_key", config.wmataApiKey)]

/-- `fetchNextBus(config)`: issue the next-bus request; on status 200 return
a success record tagged `processBusPredictorData`, otherwise a failure
record with the observed status.  The first component is the request issued
(calling the function starts the HTTP call); the second is what awaiting
the promise yields. -/
def fetchNextBus (net : Net α) (config : Config) :
    AxiosRequest × Except NetErr (FetchResult α) :=
  let req := nextBusRequest config
  (req,
    match net req with
    | Except.error e => Except.error e
    | Except.ok scheduleResponse =>
      Except.ok
        (if scheduleResponse.status == 200 then
          { success := true
            data := some scheduleResponse.data
            processor := some "processBusPredictorData"
            name := none
            status := none }
        else
          { success := false
            data := none
            processor := none
            name := none
            status := some scheduleResponse.status }))

/-- The `axiosConfig` built by `fetchStopSchedule`. -/
def stopScheduleRequest (config : Config) : AxiosRequest where
  method := "get"
  url := "https://api.wmata.com/Bus.svc/json/jStopSchedule"
  params := [("StopID", config.busStopId), ("api_key", config.wmataApiKey)]

/-- `fetchStopSchedule(config)`: like `fetchNextBus` against the stop
schedule endpoint; success records are tagged `processStopData`. -/
def fetchStopSchedule (net : Net α) (config : Config) :
    AxiosRequest × Except NetErr (FetchResult α) :=
  let req := stopScheduleRequest config
  (req,
    match net req with
    | Except.error e => Except.error e
    | Except.ok sctopResponse =>
      Except.ok
        (if sctopResponse.status == 200 then
          { success := true
            data := some sctopResponse.data
            processor := some "processStopData"
            name := none
            status := none }
        else
          { success := false
            data := none
            processor := none
            name := none
            status := some sctopResponse.status }))

/-- The `axiosConfig` built by `fetchTimeToWork`: origin is the configured
home coordinates, destination the given destination's coordinates, with
the Google credential and `mode=transit`. -/
def timeToWorkRequest (config : Config) (destination : Destination) :
    AxiosRequest where
  method := "get"
  url := "https://maps.googleapis.com/maps/api/directions/json"
  params :=
    [("origin", config.places.home.lat ++ "," ++ config.places.home.lon),
     ("destination", destination.lat ++ "," ++ destination.lon),
     ("key", config.googleApiKey),
     ("mode", "transit")]

/-- `fetchTimeToWork(config, destination)`: issue the directions request;
on status 200 return a success record tagged `processCommuteData` carrying
the destination's display name, otherwise a failure record with the
observed status. -/
def fetchTimeToWork (net : Net α) (config : Config)
    (destination : Destination) :
    AxiosRequest × Except NetErr (FetchResult α) :=
  let req := timeToWorkRequest config destination
  (req,
    match net req with
    | Except.error e => Except.error e
    | Except.ok commuteResponse =>
      Except.ok
        (if commuteResponse.status == 200 then
          { success := true
            data := some commuteResponse.data
            processor := some "processCommuteData"
            name := some destination.name
            status := none }
        else
          { success := false
            data := none
            processor := none
            name := none
            status := some commuteResponse.status }))

/-- The payload of an outbound socket signal: one fetch result
(`BUS_STOP_DATA`), a list of fetch results (`COMMUTE_DATA`), or nothing
(`TEAR-DOWN-DOM`). -/
inductive OutPayload (α : Type) where
  | single (r : FetchResult α)
  | list (rs : List (FetchResult α))
  | noPayload
deriving Repr, DecidableEq

/-- One `sendSocketNotification(name, payload)` call. -/
structure OutMsg (α : Type) where
  name : String
  payload : OutPayload α
deriving Repr, DecidableEq

/-- Everything observable about one run of the entry point: the outbound
HTTP calls issued, the socket signals sent, and the console log lines, each
in program order. -/
structure RunOutput (α : Type) where
  calls : List AxiosRequest
  sent : List (OutMsg α)
  logs : List String
deriving Repr, DecidableEq

/-- `Promise.all`: resolves with the list of values when every promise
resolved, rejects with the first rejection otherwise. -/
def promiseAll (xs : List (Except NetErr β)) : Except NetErr (List β) :=
  match xs with
  | [] => Except.ok []
  | x :: rest =>
    match x with
    | Except.error e => Except.error e
    | Except.ok v =>
      match promiseAll rest with
      | Except.error e => Except.error e
      | Except.ok vs => Except.ok (v :: vs)

/-- The `requests` array of the `FETCH_COMMUTE` branch: one started
`fetchNextBus` promise, then — only on an even current minute — one started
`fetchTimeToWork` promise per configured destination, in destination-list
order. -/
def commuteRequests (net : Net α) (payload : Config) (now : Now) :
    List (AxiosRequest × Except NetErr (FetchResult α)) :=
  fetchNextBus net payload ::
    (if now.minuteOfHour % 2 = 0 then
      payload.places.destinations.map (fetchTimeToWork net payload)
    else [])

/-- `socketNotificationReceived(notification, payload)`: evaluate the
schedule gate; when it denies, send a single `TEAR-DOWN-DOM` signal and do
nothing else.  When it allows, the `FETCH_STOP_SCHEDULE` branch awaits one
stop-schedule fetch and forwards its result under `BUS_STOP_DATA`, and the
`FETCH_COMMUTE` branch starts its batch of fetches, awaits them with
`Promise.all` and forwards the ordered result list under `COMMUTE_DATA`;
in both branches a thrown error is caught and logged and nothing is sent. -/
def socketNotificationReceived (net : Net α) (now : Now)
    (notification : String) (payload : Config) : RunOutput α :=
  if shouldWeFetchCommuteData payload now then
    let stopPart : RunOutput α :=
      if notification = "MMM-WmataBusSchedule-FETCH_STOP_SCHEDULE" then
        let pr := fetchStopSchedule net payload
        match pr.2 with
        | Except.ok stopSchedule =>
          { calls := [pr.1]
            sent := [{ name := "MMM-WmataBusSchedule-BUS_STOP_DATA"
                       payload := OutPayload.single stopSchedule }]
            logs := [] }
        | Except.error err =>
          { calls := [pr.1]
            sent := []
            logs := ["Error firing requests to WMATA API!", err.msg] }
      else { calls := [], sent := [], logs := [] }
    let commutePart : RunOutput α :=
      if notification = "MMM-WmataBusSchedule-FETCH_COMMUTE" then
        let requests := commuteRequests net payload now
        let logs0 :=
          "We are fetching bus schedule/commute data" ::
            (if now.minuteOfHour % 2 = 0 then []
             else ["We are not fetching the COmmute right now."])
        match promiseAll (requests.map Prod.snd) with
        | Except.ok responses =>
          { calls := requests.map Prod.fst
            sent := [{ name := "MMM-WmataBusSchedule-COMMUTE_DATA"
                       payload := OutPayload.list responses }]
            logs := logs0 }
        | Except.error err =>
          { calls := requests.map Prod.fst
            sent := []
            logs := logs0 ++
              ["Error firing requests to Google/WMATA APIs!", err.msg] }
      else { calls := [], sent := [], logs := [] }
    { calls := stopPart.calls ++ commutePart.calls
      sent := stopPart.sent ++ commutePart.sent
      logs := stopPart.logs ++ commutePart.logs }
  else
    { calls := []
      sent := [{ name := "MMM-WmataBusSchedule-TEAR-DOWN-DOM"
                 payload := OutPayload.noPayload }]
      logs := [] }

/-! ### Concrete fixtures used by witnesses and counterexamples -/

/-- A non-throwing network oracle built from a response function. -/
def netOf (f : AxiosRequest → HttpResponse α) : Net α :=
  fun r => Except.ok (f r)

/-- A network oracle that answers every request with HTTP 200. -/
def okNet : Net String := netOf (fun _ => { status := 200, data := "body" })

/-- A network oracle that answers every request with HTTP 404. -/
def notFoundNet : Net String := netOf (fun _ => { status := 404, data := "nf" })

/-- A network oracle whose every call throws a transport error. -/
def failNet : Net String := fun _ => Except.error { msg := "boom" }

/-- A weekday schedule: Monday–Friday, 08:00 to 09:00. -/
def sampleSchedule : Schedule where
  days := [1, 2, 3, 4, 5]
  times := { start := { hour := 8, minute := 0 }
             stop := { hour := 9, minute := 0 } }

/-- An overnight schedule: every day, 22:00 to 06:00. -/
def overnightSchedule : Schedule where
  days := [0, 1, 2, 3, 4, 5, 6]
  times := { start := { hour := 22, minute := 0 }
             stop := { hour := 6, minute := 0 } }

/-- One configured destination. -/
def workDest : Destination where
  name := "Work"
  lat := "38.90"
  lon := "-77.03"

/-- `config.places` with one destination. -/
def samplePlaces : Places where
  home := { lat := "38.91", lon := "-77.04" }
  destinations := [workDest]

/-- A configuration with the weekday schedule. -/
def sampleConfig : Config where
  busStopId := "1001"
  wmataApiKey := "wmata-key"
  googleApiKey := "google-key"
  schedule := some sampleSchedule
  places := samplePlaces

/-- A configuration without a `schedule` key. -/
def openConfig : Config where
  busStopId := "1001"
  wmataApiKey := "wmata-key"
  googleApiKey := "google-key"
  schedule := none
  places := samplePlaces

/-- A configuration with the overnight schedule. -/
def overnightConfig : Config where
  busStopId := "1001"
  wmataApiKey := "wmata-key"
  googleApiKey := "google-key"
  schedule := some overnightSchedule
  places := samplePlaces

/-- The fetch result `okNet` yields for a next-bus call. -/
def bodySuccessRecord : FetchResult String where
  success := true
  data := some "body"
  processor := some "processBusPredictorData"
  name := none
  status := none

/-- The current instant used in witnesses for an even minute: Sunday
00:00:00.000. -/
def evenNow : Now where
  day := 0
  msOfDay := 0

/-- The current instant used in witnesses for an odd minute: Sunday
00:01:00.000. -/
def oddNow : Now where
  day := 0
  msOfDay := 60000

/-- A Saturday instant inside the sample window's hours (08:30), on an
inactive day. -/
def saturdayNow : Now where
  day := 6
  msOfDay := 30600000

/-! ### Helper lemmas -/

/-- `Promise.all` over promises that all resolve: resolves with the value
list, pointwise in order. -/
theorem promiseAll_ok_of_forall (l : List (Except NetErr β))
    (h : ∀ x ∈ l, ∃ v, x = Except.ok v) :
    ∃ vs, promiseAll l = Except.ok vs ∧
      List.Forall₂ (fun x v => x = Except.ok v) l vs := by
  induction l with
  | nil => exact ⟨[], rfl, List.Forall₂.nil⟩
  | cons x rest ih =>
    obtain ⟨v, hv⟩ := h x (List.mem_cons_self x rest)
    obtain ⟨vs, hvs, hf⟩ := ih (fun y hy => h y (List.mem_cons_of_mem _ hy))
    refine ⟨v :: vs, ?_, List.Forall₂.cons hv hf⟩
    simp [promiseAll, hv, hvs]

/-- `Promise.all` over a list containing a rejected promise rejects. -/
theorem promiseAll_error_of_mem (l : List (Except NetErr β))
    (h : ∃ x ∈ l, ∃ e, x = Except.error e) :
    ∃ e, promiseAll l = Except.error e := by
  induction l with
  | nil => obtain ⟨x, hx, _⟩ := h; cases hx
  | cons x rest ih =>
    obtain ⟨y, hy, e, he⟩ := h
    rcases List.mem_cons.mp hy with rfl | hy
    · exact ⟨e, by simp [promiseAll, he]⟩
    · obtain ⟨e2, he2⟩ := ih ⟨y, hy, e, he⟩
      cases hx : x with
      | error e3 => exact ⟨e3, by simp [promiseAll, hx]⟩
      | ok v => exact ⟨e2, by simp [promiseAll, hx, he2]⟩

/-- Reduction of the entry point on `FETCH_STOP_SCHEDULE` when the gate
allows and the fetch resolves. -/
theorem run_stop_ok (net : Net α) (now : Now) (payload : Config)
    (r : FetchResult α)
    (hgate : shouldWeFetchCommuteData payload now = true)
    (hres : (fetchStopSchedule net payload).2 = Except.ok r) :
    socketNotificationReceived net now
        "MMM-WmataBusSchedule-FETCH_STOP_SCHEDULE" payload =
      { calls := [(fetchStopSchedule net payload).1]
        sent := [{ name := "MMM-WmataBusSchedule-BUS_STOP_DATA"
                   payload := OutPayload.single r }]
        logs := [] } := by
  simp [socketNotificationReceived, hgate, hres]

/-- Reduction of the entry point on `FETCH_STOP_SCHEDULE` when the gate
allows and the fetch throws. -/
theorem run_stop_error (net : Net α) (now : Now) (payload : Config)
    (e : NetErr)
    (hgate : shouldWeFetchCommuteData payload now = true)
    (hres : (fetchStopSchedule net payload).2 = Except.error e) :
    socketNotificationReceived net now
        "MMM-WmataBusSchedule-FETCH_STOP_SCHEDULE" payload =
      { calls := [(fetchStopSchedule net payload).1]
        sent := []
        logs := ["Error firing requests to WMATA API!", e.msg] } := by
  simp [socketNotificationReceived, hgate, hres]

/-- Reduction of the entry point on `FETCH_COMMUTE` when the gate allows
and every started fetch resolves. -/
theorem run_commute_ok (net : Net α) (now : Now) (payload : Config)
    (rs : List (FetchResult α))
    (hgate : shouldWeFetchCommuteData payload now = true)
    (hall : promiseAll ((commuteRequests net payload now).map Prod.snd) =
      Except.ok rs) :
    socketNotificationReceived net now
        "MMM-WmataBusSchedule-FETCH_COMMUTE" payload =
      { calls := (commuteRequests net payload now).map Prod.fst
        sent := [{ name := "MMM-WmataBusSchedule-COMMUTE_DATA"
                   payload := OutPayload.list rs }]
        logs := "We are fetching bus schedule/commute data" ::
          (if now.minuteOfHour % 2 = 0 then []
           else ["We are not fetching the COmmute right now."]) } := by
  simp [socketNotificationReceived, hgate, hall]

/-- Reduction of the entry point on `FETCH_COMMUTE` when the gate allows
and some started fetch throws. -/
theorem run_commute_error (net : Net α) (now : Now) (payload : Config)
    (e : NetErr)
    (hgate : shouldWeFetchCommuteData payload now = true)
    (hall : promiseAll ((commuteRequests net payload now).map Prod.snd) =
      Except.error e) :
    socketNotificationReceived net now
        "MMM-WmataBusSchedule-FETCH_COMMUTE" payload =
      { calls := (commuteRequests net payload now).map Prod.fst
        sent := []
        logs := ("We are fetching bus schedule/commute data" ::
          (if now.minuteOfHour % 2 = 0 then []
           else ["We are not fetching the COmmute right now."])) ++
          ["Error firing requests to Google/WMATA APIs!", e.msg] } := by
  simp [socketNotificationReceived, hgate, hall]

/-- A resolved `fetchNextBus` promise yields either the tagged success
record or a failure record with the observed status. -/
theorem fetchNextBus_ok_shape (net : Net α) (config : Config)
    (r : FetchResult α)
    (h : (fetchNextBus net config).2 = Except.ok r) :
    (∃ d, r = { success := true, data := some d
                processor := some "processBusPredictorData"
                name := none, status := none }) ∨
    (∃ s, r = { success := false, data := none, processor := none
                name := none, status := some s }) := by
  simp only [fetchNextBus] at h
  cases hx : net (nextBusRequest config) with
  | error e => rw [hx] at h; exact absurd h (by simp)
  | ok resp =>
    rw [hx] at h
    simp only [Except.ok.injEq] at h
    by_cases hs : (resp.status == 200) = true
    · rw [if_pos hs] at h
      exact Or.inl ⟨resp.data, h.symm⟩
    · rw [if_neg hs] at h
      exact Or.inr ⟨resp.status, h.symm⟩

/-- A resolved `fetchStopSchedule` promise yields either the tagged
success record or a failure record with the observed status. -/
theorem fetchStopSchedule_ok_shape (net : Net α) (config : Config)
    (r : FetchResult α)
    (h : (fetchStopSchedule net config).2 = Except.ok r) :
    (∃ d, r = { success := true, data := some d
                processor := some "processStopData"
                name := none, status := none }) ∨
    (∃ s, r = { success := false, data := none, processor := none
                name := none, status := some s }) := by
  simp only [fetchStopSchedule] at h
  cases hx : net (stopScheduleRequest config) with
  | error e => rw [hx] at h; exact absurd h (by simp)
  | ok resp =>
    rw [hx] at h
    simp only [Except.ok.injEq] at h
    by_cases hs : (resp.status == 200) = true
    · rw [if_pos hs] at h
      exact Or.inl ⟨resp.data, h.symm⟩
    · rw [if_neg hs] at h
      exact Or.inr ⟨resp.status, h.symm⟩

/-- A resolved `fetchTimeToWork` promise yields either the tagged success
record carrying the destination's name or a failure record with the
observed status. -/
theorem fetchTimeToWork_ok_shape (net : Net α) (config : Config)
    (destination : Destination) (r : FetchResult α)
    (h : (fetchTimeToWork net config destination).2 = Except.ok r) :
    (∃ d, r = { success := true, data := some d
                processor := some "processCommuteData"
                name := some destination.name, status := none }) ∨
    (∃ s, r = { success := false, data := none, processor := none
                name := none, status := some s }) := by
  simp only [fetchTimeToWork] at h
  cases hx : net (timeToWorkRequest config destination) with
  | error e => rw [hx] at h; exact absurd h (by simp)
  | ok resp =>
    rw [hx] at h
    simp only [Except.ok.injEq] at h
    by_cases hs : (resp.status == 200) = true
    · rw [if_pos hs] at h
      exact Or.inl ⟨resp.data, h.symm⟩
    · rw [if_neg hs] at h
      exact Or.inr ⟨resp.status, h.symm⟩

/-- Under a non-throwing network every started commute-batch promise
resolves. -/
theorem commuteRequests_netOf_ok (f : AxiosRequest → HttpResponse α)
    (payload : Config) (now : Now) :
    ∀ pr ∈ commuteRequests (netOf f) payload now,
      ∃ r, pr.2 = Except.ok r := by
  intro pr hpr
  rcases List.mem_cons.mp hpr with rfl | hpr
  · exact ⟨_, rfl⟩
  · by_cases hmin : now.minuteOfHour % 2 = 0
    · rw [if_pos hmin] at hpr
      obtain ⟨d, _, rfl⟩ := List.mem_map.mp hpr
      exact ⟨_, rfl⟩
    · rw [if_neg hmin] at hpr
      cases hpr

/-! ### Claims -/

/-- C1 counterexample: at a time exactly equal to the configured start
time (Wednesday 08:00:00.000 with window 08:00–09:00, Wednesday active)
the gate returns false, although the claim's half-open interval
`[start, stop)` contains that instant. -/
theorem gate_start_boundary_counterexample :
    sampleConfig.schedule = some sampleSchedule ∧
    (Now.mk 3 28800000).day ∈ sampleSchedule.days ∧
    hmToMs sampleSchedule.times.start ≤ (Now.mk 3 28800000).msOfDay ∧
    (Now.mk 3 28800000).msOfDay < hmToMs sampleSchedule.times.stop ∧
    shouldWeFetchCommuteData sampleConfig (Now.mk 3 28800000) = false := by
  decide

/-- C1 (amended): for every configuration with a schedule, the gate
returns true iff the current weekday is in the active-days set and the
current time of day lies in the OPEN interval `(start, stop)` — moment's
`isBetween` default inclusivity excludes both endpoints, so at a time
exactly equal to the start time the gate returns false, and at the stop
time it returns false. -/
theorem gate_open_interval_iff (config : Config) (s : Schedule) (now : Now)
    (hs : config.schedule = some s) :
    shouldWeFetchCommuteData config now = true ↔
      (now.day ∈ s.days ∧ hmToMs s.times.start < now.msOfDay ∧
        now.msOfDay < hmToMs s.times.stop) := by
  simp [shouldWeFetchCommuteData, hs, momentIsBetween, and_assoc]

/-- C1 witness: Wednesday 08:20 with the Monday–Friday 08:00–09:00
schedule satisfies the amended characterisation, hence the gate fires. -/
theorem gate_open_interval_iff_witness :
    shouldWeFetchCommuteData sampleConfig (Now.mk 3 30000000) = true :=
  (gate_open_interval_iff sampleConfig sampleSchedule (Now.mk 3 30000000)
    rfl).mpr (by decide)

/-- C8: a schedule whose stop time is numerically earlier than its start
time never fires: the gate returns false at every weekday and time of
day. -/
theorem overnight_window_never_fires (config : Config) (s : Schedule)
    (now : Now) (hs : config.schedule = some s)
    (hlt : hmToMs s.times.stop < hmToMs s.times.start) :
    shouldWeFetchCommuteData config now = false := by
  have h1 : momentIsBetween now.msOfDay (hmToMs s.times.start)
      (hmToMs s.times.stop) = false := by
    by_cases h2 : hmToMs s.times.start < now.msOfDay
    · have h3 : ¬ now.msOfDay < hmToMs s.times.stop := by omega
      simp [momentIsBetween, h2, h3]
    · simp [momentIsBetween, h2]
  simp [shouldWeFetchCommuteData, hs, h1]

/-- C8 witness: the 22:00–06:00 schedule (active every day) yields false
at Wednesday noon. -/
theorem overnight_window_never_fires_witness :
    overnightConfig.schedule = some overnightSchedule ∧
    hmToMs overnightSchedule.times.stop <
      hmToMs overnightSchedule.times.start ∧
    shouldWeFetchCommuteData overnightConfig (Now.mk 3 43200000) = false :=
  ⟨rfl, by decide,
    overnight_window_never_fires overnightConfig overnightSchedule
      (Now.mk 3 43200000) rfl (by decide)⟩

/-- C9: a configuration without a `schedule` key makes the gate return
true at every weekday and time of day. -/
theorem no_schedule_always_fetch (config : Config) (now : Now)
    (h : config.schedule = none) :
    shouldWeFetchCommuteData config now = true := by
  simp [shouldWeFetchCommuteData, h]

/-- C9 witness: the schedule-free configuration fires on a Saturday
midnight. -/
theorem no_schedule_always_fetch_witness :
    openConfig.schedule = none ∧
    shouldWeFetchCommuteData openConfig (Now.mk 6 0) = true :=
  ⟨rfl, no_schedule_always_fetch openConfig (Now.mk 6 0) rfl⟩

/-- C4: whenever the gate denies, the entry point makes no outbound HTTP
call and sends exactly one `TEAR-DOWN-DOM` signal with no payload, for
any request kind. -/
theorem gate_denied_tear_down (net : Net α) (now : Now)
    (notification : String) (payload : Config)
    (h : shouldWeFetchCommuteData payload now = false) :
    socketNotificationReceived net now notification payload =
      { calls := []
        sent := [{ name := "MMM-WmataBusSchedule-TEAR-DOWN-DOM"
                   payload := OutPayload.noPayload }]
        logs := [] } := by
  simp [socketNotificationReceived, h]

/-- C4 witness: Saturday 08:30 fails the Monday–Friday gate, so a
`FETCH_COMMUTE` request issues no call and produces only the tear-down
signal. -/
theorem gate_denied_tear_down_witness :
    shouldWeFetchCommuteData sampleConfig saturdayNow = false ∧
    socketNotificationReceived okNet saturdayNow
        "MMM-WmataBusSchedule-FETCH_COMMUTE" sampleConfig =
      { calls := []
        sent := [{ name := "MMM-WmataBusSchedule-TEAR-DOWN-DOM"
                   payload := OutPayload.noPayload }]
        logs := [] } :=
  ⟨by decide,
    gate_denied_tear_down okNet saturdayNow
      "MMM-WmataBusSchedule-FETCH_COMMUTE" sampleConfig (by decide)⟩

/-- C3: when the awaited response has status 200, `fetchNextBus` resolves
with a success record carrying the raw payload and the tag
`processBusPredictorData`, and `fetchStopSchedule` likewise with the tag
`processStopData`; for any other status each resolves with a failure
record carrying the observed status code. -/
theorem fetch_status_contract (net : Net α) (config : Config) :
    (∀ resp, net (nextBusRequest config) = Except.ok resp →
      (resp.status = 200 →
        (fetchNextBus net config).2 = Except.ok
          { success := true, data := some resp.data
            processor := some "processBusPredictorData"
            name := none, status := none }) ∧
      (resp.status ≠ 200 →
        (fetchNextBus net config).2 = Except.ok
          { success := false, data := none, processor := none
            name := none, status := some resp.status })) ∧
    (∀ resp, net (stopScheduleRequest config) = Except.ok resp →
      (resp.status = 200 →
        (fetchStopSchedule net config).2 = Except.ok
          { success := true, data := some resp.data
            processor := some "processStopData"
            name := none, status := none }) ∧
      (resp.status ≠ 200 →
        (fetchStopSchedule net config).2 = Except.ok
          { success := false, data := none, processor := none
            name := none, status := some resp.status })) := by
  constructor <;> intro resp hresp <;> constructor <;> intro hs <;>
    simp [fetchNextBus, fetchStopSchedule, hresp, hs]

/-- C3 witness: a mocked 200 next-bus response yields the tagged success
record, and a mocked 404 stop-schedule response yields the failure record
with status 404. -/
theorem fetch_status_contract_witness :
    (fetchNextBus okNet sampleConfig).2 = Except.ok
      { success := true, data := some "body"
        processor := some "processBusPredictorData"
        name := none, status := none } ∧
    (fetchStopSchedule notFoundNet sampleConfig).2 = Except.ok
      { success := false, data := none, processor := none
        name := none, status := some 404 } :=
  ⟨((fetch_status_contract okNet sampleConfig).1
      { status := 200, data := "body" } rfl).1 rfl,
   ((fetch_status_contract notFoundNet sampleConfig).2
      { status := 404, data := "nf" } rfl).2 (by decide)⟩

/-- C6: every fetch result any of the three fetch operations resolves
with is exactly one of a success record (`success = true` with a data
payload) or a failure record (`success = false` with a status code) —
never both and never neither. -/
theorem fetch_result_invariant (net : Net α) (config : Config)
    (destination : Destination) (r : FetchResult α)
    (h : (fetchNextBus net config).2 = Except.ok r ∨
      (fetchStopSchedule net config).2 = Except.ok r ∨
      (fetchTimeToWork net config destination).2 = Except.ok r) :
    ((r.success = true ∧ r.data.isSome = true) ∨
      (r.success = false ∧ r.status.isSome = true)) ∧
    ¬((r.success = true ∧ r.data.isSome = true) ∧
      (r.success = false ∧ r.status.isSome = true)) := by
  rcases h with h | h | h
  · rcases fetchNextBus_ok_shape net config r h with ⟨d, rfl⟩ | ⟨s, rfl⟩ <;>
      simp
  · rcases fetchStopSchedule_ok_shape net config r h with
      ⟨d, rfl⟩ | ⟨s, rfl⟩ <;> simp
  · rcases fetchTimeToWork_ok_shape net config destination r h with
      ⟨d, rfl⟩ | ⟨s, rfl⟩ <;> simp

/-- C6 witness: the record a 200 next-bus fetch resolves with is a
success record and not a failure record. -/
theorem fetch_result_invariant_witness :
    ((bodySuccessRecord.success = true ∧
        bodySuccessRecord.data.isSome = true) ∨
      (bodySuccessRecord.success = false ∧
        bodySuccessRecord.status.isSome = true)) ∧
    ¬((bodySuccessRecord.success = true ∧
        bodySuccessRecord.data.isSome = true) ∧
      (bodySuccessRecord.success = false ∧
        bodySuccessRecord.status.isSome = true)) :=
  fetch_result_invariant okNet sampleConfig workDest bodySuccessRecord
    (Or.inl rfl)

/-- C7: `fetchTimeToWork` issues a GET to the Google directions endpoint
whose query carries origin = configured home coordinates, destination =
the given destination's coordinates, the Google credential and
`mode=transit`; and on a 200 response it resolves with a success record
tagged `processCommuteData` carrying the destination's display name and
the raw payload. -/
theorem time_to_work_contract (net : Net α) (config : Config)
    (destination : Destination) :
    (fetchTimeToWork net config destination).1.method = "get" ∧
    (fetchTimeToWork net config destination).1.url =
      "https://maps.googleapis.com/maps/api/directions/json" ∧
    (fetchTimeToWork net config destination).1.params =
      [("origin", config.places.home.lat ++ "," ++ config.places.home.lon),
       ("destination", destination.lat ++ "," ++ destination.lon),
       ("key", config.googleApiKey),
       ("mode", "transit")] ∧
    ∀ resp, net (timeToWorkRequest config destination) = Except.ok resp →
      resp.status = 200 →
      (fetchTimeToWork net config destination).2 = Except.ok
        { success := true, data := some resp.data
          processor := some "processCommuteData"
          name := some destination.name, status := none } := by
  refine ⟨rfl, rfl, rfl, ?_⟩
  intro resp hresp hs
  simp [fetchTimeToWork, hresp, hs]

/-- C7 witness: for the sample home and destination the query is built
from their coordinates, and the mocked 200 response yields the tagged,
named success record. -/
theorem time_to_work_contract_witness :
    (fetchTimeToWork okNet sampleConfig workDest).1.params =
      [("origin", "38.91,-77.04"), ("destination", "38.90,-77.03"),
       ("key", "google-key"), ("mode", "transit")] ∧
    (fetchTimeToWork okNet sampleConfig workDest).2 = Except.ok
      { success := true, data := some "body"
        processor := some "processCommuteData"
        name := some "Work", status := none } :=
  ⟨((time_to_work_contract okNet sampleConfig workDest).2.2.1).trans
      (by decide),
   (time_to_work_contract okNet sampleConfig workDest).2.2.2
      { status := 200, data := "body" } rfl rfl⟩

/-- C2: a gated `FETCH_COMMUTE` request under a non-throwing network: at
an odd current minute exactly one outbound call is issued (the next-bus
request) and the delivered `COMMUTE_DATA` list has length 1; at an even
minute `1 + D` calls are issued (`D` = destination count) and the
delivered list has length `1 + D`, ordered with the next-bus result first
and then the commute results in destination-list order. -/
theorem fetch_commute_batch_contract (f : AxiosRequest → HttpResponse α)
    (now : Now) (payload : Config)
    (hgate : shouldWeFetchCommuteData payload now = true) :
    (now.minuteOfHour % 2 ≠ 0 →
      (socketNotificationReceived (netOf f) now
          "MMM-WmataBusSchedule-FETCH_COMMUTE" payload).calls =
        [nextBusRequest payload] ∧
      ∃ r, (fetchNextBus (netOf f) payload).2 = Except.ok r ∧
        (socketNotificationReceived (netOf f) now
            "MMM-WmataBusSchedule-FETCH_COMMUTE" payload).sent =
          [{ name := "MMM-WmataBusSchedule-COMMUTE_DATA"
             payload := OutPayload.list [r] }]) ∧
    (now.minuteOfHour % 2 = 0 →
      (socketNotificationReceived (netOf f) now
          "MMM-WmataBusSchedule-FETCH_COMMUTE" payload).calls =
        nextBusRequest payload ::
          payload.places.destinations.map (timeToWorkRequest payload) ∧
      (socketNotificationReceived (netOf f) now
          "MMM-WmataBusSchedule-FETCH_COMMUTE" payload).calls.length =
        1 + payload.places.destinations.length ∧
      ∃ r rs, (fetchNextBus (netOf f) payload).2 = Except.ok r ∧
        List.Forall₂ (fun d res =>
            (fetchTimeToWork (netOf f) payload d).2 = Except.ok res)
          payload.places.destinations rs ∧
        rs.length = payload.places.destinations.length ∧
        (socketNotificationReceived (netOf f) now
            "MMM-WmataBusSchedule-FETCH_COMMUTE" payload).sent =
          [{ name := "MMM-WmataBusSchedule-COMMUTE_DATA"
             payload := OutPayload.list (r :: rs) }]) := by
  have hall : ∀ x ∈ (commuteRequests (netOf f) payload now).map Prod.snd,
      ∃ v, x = Except.ok v := by
    intro x hx
    obtain ⟨pr, hpr, rfl⟩ := List.mem_map.mp hx
    exact commuteRequests_netOf_ok f payload now pr hpr
  obtain ⟨vs, hvs, hforall⟩ := promiseAll_ok_of_forall _ hall
  have hrun := run_commute_ok (netOf f) now payload vs hgate hvs
  constructor
  · intro hodd
    have hreq : commuteRequests (netOf f) payload now =
        [fetchNextBus (netOf f) payload] := by
      simp [commuteRequests, hodd]
    rw [hreq] at hforall hrun
    simp only [List.map_cons, List.map_nil] at hforall hrun
    rw [List.forall₂_cons_left_iff] at hforall
    obtain ⟨r0, rs0, hv, htail, rfl⟩ := hforall
    rw [List.forall₂_nil_left_iff] at htail
    subst htail
    rw [hrun]
    exact ⟨rfl, r0, hv, rfl⟩
  · intro heven
    have hreq : commuteRequests (netOf f) payload now =
        fetchNextBus (netOf f) payload ::
          payload.places.destinations.map
            (fetchTimeToWork (netOf f) payload) := by
      simp [commuteRequests, heven]
    rw [hreq] at hforall hrun
    simp only [List.map_cons, List.map_map] at hforall hrun
    rw [List.forall₂_cons_left_iff] at hforall
    obtain ⟨r0, rs0, hv, htail, rfl⟩ := hforall
    rw [List.forall₂_map_left_iff] at htail
    have hlen : rs0.length = payload.places.destinations.length :=
      htail.length_eq.symm
    rw [hrun]
    refine ⟨rfl, by simp [Nat.add_comm], r0, rs0, hv, htail, hlen, rfl⟩

/-- C2 witness: with a one-destination schedule-free configuration and an
all-200 network, minute 0 issues the next-bus and the commute call and
delivers both results in order. -/
theorem fetch_commute_batch_contract_witness :
    (socketNotificationReceived (netOf (fun _ => HttpResponse.mk 200 "body"))
        evenNow "MMM-WmataBusSchedule-FETCH_COMMUTE" openConfig).calls =
      nextBusRequest openConfig ::
        openConfig.places.destinations.map (timeToWorkRequest openConfig) ∧
    (socketNotificationReceived (netOf (fun _ => HttpResponse.mk 200 "body"))
        evenNow "MMM-WmataBusSchedule-FETCH_COMMUTE" openConfig).calls.length =
      1 + openConfig.places.destinations.length ∧
    ∃ r rs,
      (fetchNextBus (netOf (fun _ => HttpResponse.mk 200 "body"))
          openConfig).2 = Except.ok r ∧
      List.Forall₂ (fun d res =>
          (fetchTimeToWork (netOf (fun _ => HttpResponse.mk 200 "body"))
              openConfig d).2 = Except.ok res)
        openConfig.places.destinations rs ∧
      rs.length = openConfig.places.destinations.length ∧
      (socketNotificationReceived (netOf (fun _ => HttpResponse.mk 200 "body"))
          evenNow "MMM-WmataBusSchedule-FETCH_COMMUTE" openConfig).sent =
        [{ name := "MMM-WmataBusSchedule-COMMUTE_DATA"
           payload := OutPayload.list (r :: rs) }] :=
  (fetch_commute_batch_contract (fun _ => HttpResponse.mk 200 "body")
    evenNow openConfig rfl).2 rfl

/-- C5: when a gated fetch throws (a rejected promise, as opposed to a
non-200 response), the error is caught at the aggregation boundary of
`socketNotificationReceived`, the diagnostic line is logged, and the whole
batch for that invocation is dropped: no outbound data signal is sent, so
partial results are never delivered — for both request kinds. -/
theorem thrown_error_drops_batch (net : Net α) (now : Now)
    (payload : Config)
    (hgate : shouldWeFetchCommuteData payload now = true) :
    ((∃ e, (fetchStopSchedule net payload).2 = Except.error e) →
      (socketNotificationReceived net now
          "MMM-WmataBusSchedule-FETCH_STOP_SCHEDULE" payload).sent = [] ∧
      "Error firing requests to WMATA API!" ∈
        (socketNotificationReceived net now
          "MMM-WmataBusSchedule-FETCH_STOP_SCHEDULE" payload).logs) ∧
    ((∃ pr ∈ commuteRequests net payload now, ∃ e,
        pr.2 = Except.error e) →
      (socketNotificationReceived net now
          "MMM-WmataBusSchedule-FETCH_COMMUTE" payload).sent = [] ∧
      "Error firing requests to Google/WMATA APIs!" ∈
        (socketNotificationReceived net now
          "MMM-WmataBusSchedule-FETCH_COMMUTE" payload).logs) := by
  constructor
  · rintro ⟨e, he⟩
    rw [run_stop_error net now payload e hgate he]
    exact ⟨rfl, by simp⟩
  · rintro ⟨pr, hpr, e, he⟩
    obtain ⟨e2, he2⟩ := promiseAll_error_of_mem
      ((commuteRequests net payload now).map Prod.snd)
      ⟨pr.2, List.mem_map_of_mem Prod.snd hpr, e, he⟩
    rw [run_commute_error net now payload e2 hgate he2]
    exact ⟨rfl, by simp⟩

/-- C5 witness: under an always-throwing network with the schedule-free
configuration, both request kinds log their diagnostic line and send no
data signal. -/
theorem thrown_error_drops_batch_witness :
    (socketNotificationReceived failNet evenNow
        "MMM-WmataBusSchedule-FETCH_STOP_SCHEDULE" openConfig).sent = [] ∧
    "Error firing requests to WMATA API!" ∈
      (socketNotificationReceived failNet evenNow
        "MMM-WmataBusSchedule-FETCH_STOP_SCHEDULE" openConfig).logs ∧
    (socketNotificationReceived failNet evenNow
        "MMM-WmataBusSchedule-FETCH_COMMUTE" openConfig).sent = [] ∧
    "Error firing requests to Google/WMATA APIs!" ∈
      (socketNotificationReceived failNet evenNow
        "MMM-WmataBusSchedule-FETCH_COMMUTE" openConfig).logs := by
  obtain ⟨h1, h2⟩ := thrown_error_drops_batch failNet evenNow openConfig rfl
  have ha := h1 ⟨{ msg := "boom" }, rfl⟩
  have hb := h2 ⟨fetchNextBus failNet openConfig,
    List.mem_cons_self _ _, { msg := "boom" }, rfl⟩
  exact ⟨ha.1, ha.2, hb.1, hb.2⟩

/-- C10: an inbound notification of any other kind produces, when the
gate allows, no outbound HTTP call and no outbound signal at all; when
the gate denies it still produces the single tear-down signal. -/
theorem unrecognized_kind_behavior (net : Net α) (now : Now)
    (payload : Config) (notification : String)
    (h1 : notification ≠ "MMM-WmataBusSchedule-FETCH_STOP_SCHEDULE")
    (h2 : notification ≠ "MMM-WmataBusSchedule-FETCH_COMMUTE") :
    (shouldWeFetchCommuteData payload now = true →
      socketNotificationReceived net now notification payload =
        { calls := [], sent := [], logs := [] }) ∧
    (shouldWeFetchCommuteData payload now = false →
      socketNotificationReceived net now notification payload =
        { calls := []
          sent := [{ name := "MMM-WmataBusSchedule-TEAR-DOWN-DOM"
                     payload := OutPayload.noPayload }]
          logs := [] }) := by
  constructor <;> intro hgate <;>
    simp [socketNotificationReceived, hgate, h1, h2]

/-- C10 witness: an unknown kind with the gate open yields a fully empty
run, and with the gate closed yields only the tear-down signal. -/
theorem unrecognized_kind_behavior_witness :
    socketNotificationReceived okNet evenNow
        "MMM-WmataBusSchedule-SOMETHING_ELSE" openConfig =
      { calls := [], sent := [], logs := [] } ∧
    socketNotificationReceived okNet saturdayNow
        "MMM-WmataBusSchedule-SOMETHING_ELSE" sampleConfig =
      { calls := []
        sent := [{ name := "MMM-WmataBusSchedule-TEAR-DOWN-DOM"
                   payload := OutPayload.noPayload }]
        logs := [] } :=
  ⟨(unrecognized_kind_behavior okNet evenNow openConfig
      "MMM-WmataBusSchedule-SOMETHING_ELSE" (by decide) (by decide)).1 rfl,
   (unrecognized_kind_behavior okNet saturdayNow sampleConfig
      "MMM-WmataBusSchedule-SOMETHING_ELSE" (by decide) (by decide)).2
     (by decide)⟩

end WmataBusSchedule
